import Mathlib

/-!
Verification of the AliRoot excerpt (MUON reconstruction dispatch, event
generator kinematic cuts, nano-AOD storage) against its specification.

The C++ sources are shallowly embedded: strings are lists of characters,
`Int_t` is `Int`, `Double_t` values stored in the nano-AOD storage are `ℚ`
(no arithmetic is performed on them), real-valued kinematics are `ℝ`, and
fallible operations (accessors that may call `AliFatal`) return
`Except String α`.
-/

namespace AliRoot

/-! ## Basic string operations (ROOT `TString` helpers used by the sources)

`startsWith pat s` decides whether `pat` is an initial segment of `s`;
`containsSub s pat` decides whether `pat` occurs as a contiguous substring
of `s`.  This is the semantics of `TString::Contains` / C `strstr` (note
that the empty pattern is contained in every string, since
`TString::Index("") = 0 ≠ -1`). -/

def startsWith : List Char → List Char → Bool
  | [], _ => true
  | _ :: _, [] => false
  | p :: ps, c :: cs => p == c && startsWith ps cs

def containsSub : List Char → List Char → Bool
  | [], pat => pat.isEmpty
  | s@(_ :: t), pat => startsWith pat s || containsSub t pat

/-- `TString::ToUpper` upper-cases each character (ASCII `toupper`). -/
def toUpperChar (c : Char) : Char :=
  if 'a' ≤ c ∧ c ≤ 'z' then Char.ofNat (c.toNat - 32) else c

/-- Upper-case a whole string, as `TString::ToUpper` does. -/
def upperStr (s : List Char) : List Char := s.map toUpperChar

/-! ## AliNanoAODStorage (src/STEER/AOD/AliNanoAODStorage.cxx) -/

/-- The data members of `AliNanoAODStorage`: a vector of `Double_t`
variables with its declared count, and a vector of string variables with
its declared count. -/
structure AliNanoAODStorage where
  fNVars : Int
  fVars : List ℚ
  fNVarsString : Int
  fVarsString : List String
  deriving DecidableEq, Repr

/-- The `AliFatal` message produced by `AliNanoAODStorage::Complain`:
`Form("Variable %d not included in this special aod", index)`. -/
def Complain (index : Int) : String :=
  "Variable " ++ toString index ++ " not included in this special aod"

/-- Modelled from the spec: the bounds-checked numeric reader declared in
`AliNanoAODStorage.h` (only the `.cxx` is in the excerpt).  The spec calls
the accessors "thin data-storage accessors with bounds checks": an index
inside `[0, fNVars)` returns the stored value, any other index invokes
`Complain`, which raises the fatal error naming the index. -/
def GetVar (sto : AliNanoAODStorage) (index : Int) : Except String ℚ :=
  if 0 ≤ index ∧ index < sto.fNVars then .ok (sto.fVars.getD index.toNat 0)
  else .error (Complain index)

/-- Modelled from the spec: the bounds-checked numeric writer declared in
`AliNanoAODStorage.h`; an out-of-range index invokes `Complain` and nothing
is written. -/
def SetVar (sto : AliNanoAODStorage) (index : Int) (v : ℚ) :
    Except String AliNanoAODStorage :=
  if 0 ≤ index ∧ index < sto.fNVars then
    .ok { sto with fVars := sto.fVars.set index.toNat v }
  else .error (Complain index)

/-- Modelled from the spec: the bounds-checked string reader declared in
`AliNanoAODStorage.h`. -/
def GetVarString (sto : AliNanoAODStorage) (index : Int) :
    Except String String :=
  if 0 ≤ index ∧ index < sto.fNVarsString then
    .ok (sto.fVarsString.getD index.toNat "")
  else .error (Complain index)

/-- Modelled from the spec: the bounds-checked string writer declared in
`AliNanoAODStorage.h`; an out-of-range index invokes `Complain` and nothing
is written. -/
def SetVarString (sto : AliNanoAODStorage) (index : Int) (v : String) :
    Except String AliNanoAODStorage :=
  if 0 ≤ index ∧ index < sto.fNVarsString then
    .ok { sto with fVarsString := sto.fVarsString.set index.toNat v }
  else .error (Complain index)

/-- `AliNanoAODStorage::AllocateInternalStorage(size, sizeString)`.
Returns the updated storage together with a flag recording whether the
`AliError("Zero size")` branch was taken.  `std::vector::clear` followed by
`resize(n, x)` yields `n` copies of `x`. -/
def AllocateInternalStorage (sto : AliNanoAODStorage) (size sizeString : Int) :
    AliNanoAODStorage × Bool :=
  if size = 0 then (sto, true)
  else
    let sto1 := { sto with
      fNVars := size
      fVars := List.replicate size.toNat (0 : ℚ) }
    if sizeString > 0 then
      ({ sto1 with
        fNVarsString := sizeString
        fVarsString := List.replicate sizeString.toNat "" }, false)
    else (sto1, false)

/-- The copy loops of `AliNanoAODStorage::operator=`: for each index below
the source counts, read from the source with `GetVar`/`GetVarString` and
write into the target with `SetVar`/`SetVarString`. -/
def copyAllVars (src t : AliNanoAODStorage) : Except String AliNanoAODStorage := do
  let t1 ← (List.range src.fNVars.toNat).foldlM (fun acc i => do
    let v ← GetVar src (Int.ofNat i)
    SetVar acc (Int.ofNat i) v) t
  (List.range src.fNVarsString.toNat).foldlM (fun acc i => do
    let v ← GetVarString src (Int.ofNat i)
    SetVarString acc (Int.ofNat i) v) t1

/-- `AliNanoAODStorage::operator=`.  It first calls
`AllocateInternalStorage(sto.fNVars, sto.fNVarsString)` on `this`, and only
then performs the self-comparison `this != &sto`; the copy loops run only
when the two objects are distinct.  `selfAlias` records the C++ pointer
identity `this == &sto`, which is not a value-level property. -/
def opAssign (selfAlias : Bool) (this sto : AliNanoAODStorage) :
    Except String AliNanoAODStorage :=
  let t := (AllocateInternalStorage this sto.fNVars sto.fNVarsString).1
  if selfAlias then .ok t
  else copyAllVars sto t

/-- `TString::Strip(TString::kBoth, ' ')`: remove leading and trailing
space characters. -/
def stripBoth (t : List Char) : List Char :=
  ((t.dropWhile (· == ' ')).reverse.dropWhile (· == ' ')).reverse

/-- Split a string at every comma, keeping empty segments. -/
def splitComma : List Char → List (List Char)
  | [] => [[]]
  | c :: rest =>
    let r := splitComma rest
    if c == ',' then [] :: r
    else
      match r with
      | [] => [[c]]
      | seg :: segs => (c :: seg) :: segs

/-- `TString::Tokenize(",")` (ROOT): the string is cut at every comma and
only the non-empty pieces are returned (`"a,,b"` gives two tokens). -/
def tokenize (s : List Char) : List (List Char) :=
  (splitComma s).filter (fun t => !t.isEmpty)

/-- The fixed list of possible string variables,
`"FiredTriggerClasses"`. -/
def stringVariables : List Char := "FiredTriggerClasses".toList

/-- `AliNanoAODStorage::GetStringParameters(varListHeader)`: tokenize the
header at commas, strip each token of leading/trailing spaces, and count
the tokens contained in `stringVariables`. -/
def GetStringParameters (varListHeader : List Char) : Nat :=
  (tokenize varListHeader).foldl
    (fun stringVars var =>
      if containsSub stringVariables (stripBoth var) then stringVars + 1
      else stringVars) 0

/-! ## AliMUONReconstructor (src/MUON/AliMUONReconstructor.cxx) -/

/-- The concrete `AliMUONVClusterFinder` implementations that
`AliMUONReconstructor::CreateClusterFinder` can construct, together with
the constructor arguments the factory passes (the `plot` flag of the
MLEM/Peak finders and the nested preclusterer / COG finder). -/
inductive ClusterFinder where
  | PreClusterFinderV2 : ClusterFinder
  | PreClusterFinderV3 : ClusterFinder
  | PreClusterFinder : ClusterFinder
  | PeakCOG (plot : Bool) (pre : ClusterFinder) : ClusterFinder
  | PeakFit (plot : Bool) (pre : ClusterFinder) : ClusterFinder
  | COG (pre : ClusterFinder) : ClusterFinder
  | SimpleFit (inner : ClusterFinder) : ClusterFinder
  | MLEM (plot : Bool) (pre : ClusterFinder) : ClusterFinder
  deriving DecidableEq, Repr, Inhabited

/-- `AliMUONReconstructor::CreateClusterFinder(clusterFinderType)`: the
mode string is upper-cased and tested with `strstr` against each
recognized substring in turn; the first match decides the variant, and
when nothing matches an error is logged and the null pointer (`none`) is
returned. -/
def CreateClusterFinder (clusterFinderType : List Char) : Option ClusterFinder :=
  let opt := upperStr clusterFinderType
  if containsSub opt "PRECLUSTERV2".toList then some .PreClusterFinderV2
  else if containsSub opt "PRECLUSTERV3".toList then some .PreClusterFinderV3
  else if containsSub opt "PRECLUSTER".toList then some .PreClusterFinder
  else if containsSub opt "PEAKCOG".toList then
    some (.PeakCOG false .PreClusterFinder)
  else if containsSub opt "PEAKFIT".toList then
    some (.PeakFit false .PreClusterFinder)
  else if containsSub opt "COG".toList then some (.COG .PreClusterFinder)
  else if containsSub opt "SIMPLEFITV3".toList then
    some (.SimpleFit (.COG .PreClusterFinderV3))
  else if containsSub opt "SIMPLEFIT".toList then
    some (.SimpleFit (.COG .PreClusterFinder))
  else if containsSub opt "MLEM:DRAW".toList then
    some (.MLEM true .PreClusterFinder)
  else if containsSub opt "MLEMV3".toList then
    some (.MLEM false .PreClusterFinderV3)
  else if containsSub opt "MLEMV2".toList then
    some (.MLEM false .PreClusterFinderV2)
  else if containsSub opt "MLEM".toList then
    some (.MLEM false .PreClusterFinder)
  else none

/-- The recognized clustering-mode substrings, in the order the factory
tests them, each paired with the variant it constructs. -/
def clusterModes : List (List Char × ClusterFinder) :=
  [("PRECLUSTERV2".toList, .PreClusterFinderV2),
   ("PRECLUSTERV3".toList, .PreClusterFinderV3),
   ("PRECLUSTER".toList, .PreClusterFinder),
   ("PEAKCOG".toList, .PeakCOG false .PreClusterFinder),
   ("PEAKFIT".toList, .PeakFit false .PreClusterFinder),
   ("COG".toList, .COG .PreClusterFinder),
   ("SIMPLEFITV3".toList, .SimpleFit (.COG .PreClusterFinderV3)),
   ("SIMPLEFIT".toList, .SimpleFit (.COG .PreClusterFinder)),
   ("MLEM:DRAW".toList, .MLEM true .PreClusterFinder),
   ("MLEMV3".toList, .MLEM false .PreClusterFinderV3),
   ("MLEMV2".toList, .MLEM false .PreClusterFinderV2),
   ("MLEM".toList, .MLEM false .PreClusterFinder)]

/-- The digit-store implementations `AliMUONVDigitStore::Create` can be
asked for by `AliMUONReconstructor::DigitStore`. -/
inductive DigitStoreKind where
  | V1 : DigitStoreKind
  | V2R : DigitStoreKind
  | V2S : DigitStoreKind
  deriving DecidableEq, Repr

/-- `AliMUONReconstructor::DigitStore()`: when the cached member
`fDigitStore` is already set it is returned unchanged; otherwise the
option string is upper-cased and the store implementation is chosen by the
first matching `DIGITSTORE…` flag, falling back to `AliMUONDigitStoreV2R`
when none matched.  The result pairs the returned store with the new value
of the cached member. -/
def DigitStore (option : List Char) (fDigitStore : Option DigitStoreKind) :
    DigitStoreKind × Option DigitStoreKind :=
  match fDigitStore with
  | some s => (s, some s)
  | none =>
    let sopt := upperStr option
    let s0 : Option DigitStoreKind :=
      if containsSub sopt "DIGITSTOREV1".toList then some .V1
      else if containsSub sopt "DIGITSTOREV2R".toList then some .V2R
      else if containsSub sopt "DIGITSTOREV2S".toList then some .V2S
      else none
    let s := s0.getD .V2R
    (s, some s)

/-- The environment `AliMUONReconstructor::CreateCalibrator` consults: the
run number currently set in the `AliCDBManager` singleton, and, per run
number, whether `AliMUONCalibrationData` built for that run is valid and
whether its pedestals, gains and HV calibration objects are present. -/
structure CDBEnv where
  run : Int
  isValid : Int → Bool
  hasPedestals : Int → Bool
  hasGains : Int → Bool
  hasHV : Int → Bool

/-- The final state of `AliMUONReconstructor::CreateCalibrator`:
`fCalibrationData` and `fDigitCalibrator` record the run number whose
calibration data each object was built from (`none` = null pointer), and
`outcome` records which branch the method took. -/
inductive CalibOutcome where
  | errorReturn : CalibOutcome
  | fatal : CalibOutcome
  | created : CalibOutcome
  deriving DecidableEq, Repr

/-- Result record for `CreateCalibrator`. -/
structure CalibratorState where
  fCalibrationData : Option Int
  fDigitCalibrator : Option Int
  outcome : CalibOutcome
  deriving DecidableEq, Repr

/-- `AliMUONReconstructor::CreateCalibrator()`: build
`AliMUONCalibrationData` for the run number currently set in the CDB
manager; if it is invalid, log an error, delete it, null the member and
return (no calibrator); otherwise `AliFatal` when pedestals, gains or HV
are missing; otherwise construct the `AliMUONDigitCalibrator` from that
calibration data. -/
def CreateCalibrator (env : CDBEnv) : CalibratorState :=
  let runNumber := env.run
  if env.isValid runNumber = false then
    { fCalibrationData := none, fDigitCalibrator := none,
      outcome := .errorReturn }
  else if env.hasPedestals runNumber = false ∨ env.hasGains runNumber = false ∨
      env.hasHV runNumber = false then
    { fCalibrationData := some runNumber, fDigitCalibrator := none,
      outcome := .fatal }
  else
    { fCalibrationData := some runNumber, fDigitCalibrator := some runNumber,
      outcome := .created }

/-! ## AliGenParam (src/EVGEN/AliGenParam.cxx) -/

/-- The forced decay modes handled by the `switch` in
`AliGenParam::Init` (the `Decay_t` enumerators appearing there). -/
inductive ForcedDecay where
  | semielectronic
  | dielectron
  | b_jpsi_dielectron
  | b_psip_dielectron
  | semimuonic
  | dimuon
  | b_jpsi_dimuon
  | b_psip_dimuon
  | pitomu
  | katomu
  deriving DecidableEq, Repr

/-- The child PDG code the `switch (fForceDecay)` of `AliGenParam::Init`
writes into `fChildSelect[0]`: 11 (electron) for the electronic modes, 13
(muon) for the muonic modes. -/
def childPDG (d : ForcedDecay) : Int :=
  match d with
  | .semielectronic | .dielectron | .b_jpsi_dielectron
  | .b_psip_dielectron => 11
  | .semimuonic | .dimuon | .b_jpsi_dimuon | .b_psip_dimuon
  | .pitomu | .katomu => 13

/-- The `fChildSelect` array after the `AliGenParam(npart, param)`
constructor (`fChildSelect.Set(5)` followed by zeroing all five slots) and
the `switch (fForceDecay)` of `AliGenParam::Init`, which writes the child
PDG code into slot 0 only. -/
def initChildSelect (d : ForcedDecay) : List Int :=
  (List.replicate 5 (0 : Int)).set 0 (childPDG d)

/-- `AliGenParam::ChildSelected(ip)`: scan the five entries of
`fChildSelect` and return true on the first one equal to `ip`. -/
def ChildSelected (fChildSelect : List Int) (ip : Int) : Bool :=
  fChildSelect.any (fun c => c == ip)

/-- `TMath::ATan2(y, x)`, the C library `atan2`: the angle of the point
`(x, y)` in `(-π, π]`, with `atan2(0, 0) = 0`. -/
noncomputable def atan2 (y x : ℝ) : ℝ :=
  if 0 < x then Real.arctan (y / x)
  else if x < 0 ∧ 0 ≤ y then Real.arctan (y / x) + Real.pi
  else if x < 0 ∧ y < 0 then Real.arctan (y / x) - Real.pi
  else if x = 0 ∧ 0 < y then Real.pi / 2
  else if x = 0 ∧ y < 0 then -(Real.pi / 2)
  else 0

/-- The kinematic windows of `AliGenerator` consulted by
`AliGenParam::Generate` and `AliGenParam::KinematicSelection`. -/
structure KineWindows where
  fThetaMin : ℝ
  fThetaMax : ℝ
  fPMin : ℝ
  fPMax : ℝ

/-- One sampled parent candidate of `AliGenParam::Generate`: the sampled
transverse momentum `pt`, the longitudinal momentum
`pl = sqrt(pt²+am²)·tanh(y)/sqrt(1-tanh(y)²)` computed from the sampled
rapidity, and the verdict of the subsequent decay/child-selection block
(`(fCutOnChild && ncsel > 0) || !fCutOnChild`), which is external Pythia
physics. -/
structure ParentCandidate where
  pt : ℝ
  pl : ℝ
  childOk : Bool

/-- The polar angle `theta = TMath::ATan2(pt, pl)` the generator computes
for a candidate. -/
noncomputable def thetaOf (c : ParentCandidate) : ℝ := atan2 c.pt c.pl

/-- The total momentum `ptot = TMath::Sqrt(pt*pt + pl*pl)` the generator
computes for a candidate. -/
noncomputable def ptotOf (c : ParentCandidate) : ℝ :=
  Real.sqrt (c.pt ^ 2 + c.pl ^ 2)

/-- The two `continue` tests of the sampling loop of
`AliGenParam::Generate`: a candidate survives exactly when neither
`theta < fThetaMin || theta > fThetaMax` nor
`ptot < fPMin || ptot > fPMax` holds. -/
def acceptParent (w : KineWindows) (c : ParentCandidate) : Prop :=
  ¬(thetaOf c < w.fThetaMin ∨ thetaOf c > w.fThetaMax) ∧
    ¬(ptotOf c < w.fPMin ∨ ptotOf c > w.fPMax)

noncomputable instance (w : KineWindows) (c : ParentCandidate) :
    Decidable (acceptParent w c) := by
  unfold acceptParent; infer_instance

/-- The event loop of `AliGenParam::Generate`, abstracted over the stream
of sampled candidates: candidates failing the theta or momentum window are
discarded and the next candidate is drawn; a surviving candidate whose
decay products pass the child selection is stored as a parent track and
counts towards `fNpart`; a surviving candidate failing the child cut is
dropped without counting (the inner loop `break`s and a fresh candidate is
drawn).  Returns the parents stored with `SetTrack`. -/
noncomputable def generateParents (w : KineWindows) :
    Nat → List ParentCandidate → List ParentCandidate
  | _, [] => []
  | 0, _ => []
  | npart + 1, c :: cs =>
    if acceptParent w c then
      if c.childOk then c :: generateParents w npart cs
      else generateParents w (npart + 1) cs
    else generateParents w (npart + 1) cs

/-- The momentum components of a `TParticle` handed to
`AliGenParam::KinematicSelection`. -/
structure ParticleMomentum where
  px : ℝ
  py : ℝ
  pz : ℝ

/-- The total momentum `TMath::Sqrt(px*px+py*py+pz*pz)`. -/
noncomputable def pOf (q : ParticleMomentum) : ℝ :=
  Real.sqrt (q.px ^ 2 + q.py ^ 2 + q.pz ^ 2)

/-- The transverse momentum `TMath::Sqrt(px*px+py*py)`. -/
noncomputable def ptOf (q : ParticleMomentum) : ℝ :=
  Real.sqrt (q.px ^ 2 + q.py ^ 2)

/-- The angle `AliGenParam::KinematicSelection` actually computes:
`theta = TMath::ATan2(pt, p)` — the second argument is the total momentum
`p`, not the longitudinal component `pz`. -/
noncomputable def thetaCode (q : ParticleMomentum) : ℝ := atan2 (ptOf q) (pOf q)

/-- The polar angle of the particle in the usual sense,
`atan2(pt, pz)` — what `TParticle::Theta()` would return. -/
noncomputable def polarAngle (q : ParticleMomentum) : ℝ := atan2 (ptOf q) q.pz

/-- `AliGenParam::KinematicSelection(particle)`: reject when the total
momentum falls outside `[fPMin, fPMax]`, then reject when
`atan2(pt, p)` falls outside `[fThetaMin, fThetaMax]`, else accept. -/
noncomputable def KinematicSelection (w : KineWindows) (q : ParticleMomentum) :
    Bool :=
  if pOf q > w.fPMax ∨ pOf q < w.fPMin then false
  else if thetaCode q > w.fThetaMax ∨ thetaCode q < w.fThetaMin then false
  else true

/-! ## Helper lemmas -/

theorem list_getD_replicate {α : Type _} (n i : Nat) (a : α) :
    (List.replicate n a).getD i a = a := by
  induction n generalizing i with
  | zero => simp [List.getD]
  | succ n ih =>
    cases i with
    | zero => simp [List.replicate]
    | succ i => simp [List.replicate, ih i]

/-! ## Claim theorems -/

/-- Claim C9: `AliNanoAODStorage::AllocateInternalStorage(size, sizeString)`
with `size == 0` logs an error and leaves the whole storage state
unchanged; with `size > 0` and `sizeString <= 0` it resizes the numeric
storage to `size` zero entries and leaves the string storage fields
unchanged; with `size > 0` and `sizeString > 0` it additionally resizes
the string storage to `sizeString` empty strings. -/
theorem allocateInternalStorage_spec (sto : AliNanoAODStorage)
    (size sizeString : Int) :
    (size = 0 → AllocateInternalStorage sto size sizeString = (sto, true)) ∧
    (0 < size → sizeString ≤ 0 →
      AllocateInternalStorage sto size sizeString =
        ({ sto with
            fNVars := size
            fVars := List.replicate size.toNat (0 : ℚ) }, false)) ∧
    (0 < size → 0 < sizeString →
      AllocateInternalStorage sto size sizeString =
        ({ fNVars := size
           fVars := List.replicate size.toNat (0 : ℚ)
           fNVarsString := sizeString
           fVarsString := List.replicate sizeString.toNat "" }, false)) := by
  refine ⟨fun h0 => ?_, fun hpos hstr => ?_, fun hpos hstr => ?_⟩
  · unfold AllocateInternalStorage
    rw [if_pos h0]
  · unfold AllocateInternalStorage
    rw [if_neg (by omega), if_neg (by omega)]
  · unfold AllocateInternalStorage
    rw [if_neg (by omega), if_pos (by omega)]

/-- Witness for C9: the three branches evaluated on a concrete storage. -/
theorem allocateInternalStorage_spec_witness :
    AllocateInternalStorage ⟨1, [5], 1, ["x"]⟩ 0 3 = (⟨1, [5], 1, ["x"]⟩, true) ∧
    AllocateInternalStorage ⟨1, [5], 1, ["x"]⟩ 2 0 =
      (⟨2, List.replicate 2 (0 : ℚ), 1, ["x"]⟩, false) ∧
    AllocateInternalStorage ⟨1, [5], 1, ["x"]⟩ 2 3 =
      (⟨2, List.replicate 2 (0 : ℚ), 3, List.replicate 3 ""⟩, false) :=
  ⟨(allocateInternalStorage_spec ⟨1, [5], 1, ["x"]⟩ 0 3).1 rfl,
   (allocateInternalStorage_spec ⟨1, [5], 1, ["x"]⟩ 2 0).2.1 (by decide) (by decide),
   (allocateInternalStorage_spec ⟨1, [5], 1, ["x"]⟩ 2 3).2.2 (by decide) (by decide)⟩

/-- Claim C7: the event-data storage accessors are bounds-checked.  For
every index outside the allocated range, reading or setting the variable
at that index produces the fatal `Complain` error naming the offending
index, instead of returning or writing out-of-range data. -/
theorem nanoAODStorage_bounds_checked (sto : AliNanoAODStorage) (index : Int)
    (v : ℚ) (s : String) :
    (index < 0 ∨ sto.fNVars ≤ index →
      GetVar sto index = .error (Complain index) ∧
      SetVar sto index v = .error (Complain index)) ∧
    (index < 0 ∨ sto.fNVarsString ≤ index →
      GetVarString sto index = .error (Complain index) ∧
      SetVarString sto index s = .error (Complain index)) := by
  refine ⟨fun h => ⟨?_, ?_⟩, fun h => ⟨?_, ?_⟩⟩
  · unfold GetVar
    rw [if_neg (by omega)]
  · unfold SetVar
    rw [if_neg (by omega)]
  · unfold GetVarString
    rw [if_neg (by omega)]
  · unfold SetVarString
    rw [if_neg (by omega)]

/-- Witness for C7: a storage with two numeric and one string variable,
read and written at the out-of-range index 5. -/
theorem nanoAODStorage_bounds_checked_witness :
    GetVar ⟨2, [1/2, 3], 1, ["a"]⟩ 5 = .error (Complain 5) ∧
    SetVar ⟨2, [1/2, 3], 1, ["a"]⟩ 5 7 = .error (Complain 5) ∧
    GetVarString ⟨2, [1/2, 3], 1, ["a"]⟩ 5 = .error (Complain 5) ∧
    SetVarString ⟨2, [1/2, 3], 1, ["a"]⟩ 5 "b" = .error (Complain 5) :=
  ⟨((nanoAODStorage_bounds_checked ⟨2, [1/2, 3], 1, ["a"]⟩ 5 7 "b").1
      (by decide)).1,
   ((nanoAODStorage_bounds_checked ⟨2, [1/2, 3], 1, ["a"]⟩ 5 7 "b").1
      (by decide)).2,
   ((nanoAODStorage_bounds_checked ⟨2, [1/2, 3], 1, ["a"]⟩ 5 7 "b").2
      (by decide)).1,
   ((nanoAODStorage_bounds_checked ⟨2, [1/2, 3], 1, ["a"]⟩ 5 7 "b").2
      (by decide)).2⟩

/-- Claim C8: self-assignment of `AliNanoAODStorage` is not the identity.
For a storage with nonzero `fNVars`, `s = s` first reallocates and
zero-fills the internal storage (before the `this != &sto` check) and then
skips the copy loops, so afterwards every numeric variable is 0 and every
string variable is the empty string, whatever they were before. -/
theorem selfAssign_zeroes (s : AliNanoAODStorage) (h : s.fNVars ≠ 0) :
    ∃ t, opAssign true s s = Except.ok t ∧
      t.fNVars = s.fNVars ∧
      t.fVars = List.replicate s.fNVars.toNat (0 : ℚ) ∧
      (∀ i : Int, 0 ≤ i → i < t.fNVars → GetVar t i = .ok 0) ∧
      (∀ i : Int, 0 ≤ i → i < t.fNVarsString → GetVarString t i = .ok "") := by
  refine ⟨(AllocateInternalStorage s s.fNVars s.fNVarsString).1, rfl, ?_⟩
  unfold AllocateInternalStorage
  rw [if_neg h]
  by_cases hs : s.fNVarsString > 0
  · rw [if_pos hs]
    refine ⟨rfl, rfl, fun i h0 hi => ?_, fun i h0 hi => ?_⟩
    · unfold GetVar
      rw [if_pos ⟨h0, hi⟩]
      rw [list_getD_replicate]
    · unfold GetVarString
      rw [if_pos ⟨h0, hi⟩]
      rw [list_getD_replicate]
  · rw [if_neg hs]
    refine ⟨rfl, rfl, fun i h0 hi => ?_, fun i h0 hi => ?_⟩
    · unfold GetVar
      rw [if_pos ⟨h0, hi⟩]
      rw [list_getD_replicate]
    · exact absurd hi (by simp at hs ⊢; omega)

/-- Witness for C8: a concrete storage with two numeric variables holding
5 and 7 and one string variable holding `"x"`, self-assigned. -/
theorem selfAssign_zeroes_witness :
    ∃ t, opAssign true ⟨2, [5, 7], 1, ["x"]⟩ ⟨2, [5, 7], 1, ["x"]⟩ =
        Except.ok t ∧
      t.fNVars = (⟨2, [5, 7], 1, ["x"]⟩ : AliNanoAODStorage).fNVars ∧
      t.fVars = List.replicate (Int.toNat 2) (0 : ℚ) ∧
      (∀ i : Int, 0 ≤ i → i < t.fNVars → GetVar t i = .ok 0) ∧
      (∀ i : Int, 0 ≤ i → i < t.fNVarsString → GetVarString t i = .ok "") :=
  selfAssign_zeroes ⟨2, [5, 7], 1, ["x"]⟩ (by decide)

theorem foldl_count_eq (p : List Char → Bool) (l : List (List Char)) (n : Nat) :
    l.foldl (fun k t => if p t then k + 1 else k) n = n + l.countP p := by
  induction l generalizing n with
  | nil => simp
  | cons t ts ih =>
    simp only [List.foldl_cons, List.countP_cons, ih]
    by_cases hp : p t
    · simp [hp]
      omega
    · simp [hp]

/-- Claim C10: `AliNanoAODStorage::GetStringParameters(varListHeader)`
returns the number of comma-separated tokens of the header whose form,
after stripping leading and trailing spaces, occurs as a substring of
`"FiredTriggerClasses"`; the result does not depend on the order of the
tokens nor on tokens that are not such substrings, and a token such as
`"Trigger"` or a spaces-only token (empty after stripping) is counted even
though it is not itself the declared string variable. -/
theorem getStringParameters_spec :
    (∀ h, GetStringParameters h =
      (tokenize h).countP (fun t => containsSub stringVariables (stripBoth t))) ∧
    (∀ h1 h2, (tokenize h1).Perm (tokenize h2) →
      GetStringParameters h1 = GetStringParameters h2) ∧
    (∀ h1 h2,
      (tokenize h1).filter (fun t => containsSub stringVariables (stripBoth t)) =
        (tokenize h2).filter (fun t => containsSub stringVariables (stripBoth t)) →
      GetStringParameters h1 = GetStringParameters h2) ∧
    GetStringParameters "Trigger, ".toList = 2 := by
  have hmain : ∀ h, GetStringParameters h =
      (tokenize h).countP (fun t => containsSub stringVariables (stripBoth t)) := by
    intro h
    unfold GetStringParameters
    simpa using foldl_count_eq
      (fun t => containsSub stringVariables (stripBoth t)) (tokenize h) 0
  refine ⟨hmain, fun h1 h2 hperm => ?_, fun h1 h2 hfilter => ?_, ?_⟩
  · rw [hmain h1, hmain h2]
    exact hperm.countP_eq _
  · rw [hmain h1, hmain h2, List.countP_eq_length_filter,
      List.countP_eq_length_filter, hfilter]
  · decide

/-- Witness for C10: two headers with permuted tokens, and two headers
agreeing on their counted tokens but differing in irrelevant ones. -/
theorem getStringParameters_spec_witness :
    GetStringParameters "a,b".toList = GetStringParameters "b,a".toList ∧
    GetStringParameters "Trigger,zzz".toList =
      GetStringParameters "zzz,qqq,Trigger".toList :=
  ⟨getStringParameters_spec.2.1 "a,b".toList "b,a".toList (by decide),
   getStringParameters_spec.2.2.1 "Trigger,zzz".toList
     "zzz,qqq,Trigger".toList (by decide)⟩

/-- Counterexample for claim C5: after `Init` with forced decay mode
`semielectronic`, `ChildSelected(0)` returns true even though 0 is not 11:
the four unset slots of `fChildSelect` still hold 0 and the scan matches
them.  The claim says every `ip` other than 11 yields false. -/
theorem childSelected_zero_counterexample :
    ChildSelected (initChildSelect .semielectronic) 0 = true ∧
    (0 : Int) ≠ 11 := by decide

/-- Claim C5 (amended): after `AliGenParam::Init` with one of the forced
decay modes of the `switch`, `ChildSelected(ip)` returns true exactly when
`ip` equals the selected child PDG code (11 for the electronic modes, 13
for the muonic ones) or `ip` equals 0, the value filling the four unused
slots of `fChildSelect`; for every other `ip` it returns false. -/
theorem childSelected_spec (d : ForcedDecay) (ip : Int) :
    ChildSelected (initChildSelect d) ip = true ↔
      (ip = childPDG d ∨ ip = 0) := by
  cases d <;>
    (simp [ChildSelected, initChildSelect, childPDG, List.replicate]; omega)

/-- Claim C3: `AliMUONReconstructor::CreateCalibrator` builds the
calibration data for the run number currently set in the CDB manager.
When that data is invalid it logs an error, deletes it and returns with
both `fCalibrationData` and `fDigitCalibrator` null; when it is valid but
pedestals, gains or HV are missing it terminates fatally; only when all
three are present is the digit calibrator constructed, from that run's
data. -/
theorem createCalibrator_spec (env : CDBEnv) :
    (env.isValid env.run = false →
      CreateCalibrator env =
        { fCalibrationData := none, fDigitCalibrator := none,
          outcome := .errorReturn }) ∧
    (env.isValid env.run = true →
      (env.hasPedestals env.run = false ∨ env.hasGains env.run = false ∨
        env.hasHV env.run = false) →
      CreateCalibrator env =
        { fCalibrationData := some env.run, fDigitCalibrator := none,
          outcome := .fatal }) ∧
    (env.isValid env.run = true → env.hasPedestals env.run = true →
      env.hasGains env.run = true → env.hasHV env.run = true →
      CreateCalibrator env =
        { fCalibrationData := some env.run,
          fDigitCalibrator := some env.run, outcome := .created }) := by
  refine ⟨fun hv => ?_, fun hv hmiss => ?_, fun hv hp hg hh => ?_⟩
  · unfold CreateCalibrator
    rw [if_pos hv]
  · unfold CreateCalibrator
    rw [if_neg (by simp [hv]), if_pos hmiss]
  · unfold CreateCalibrator
    rw [if_neg (by simp [hv]), if_neg (by simp [hp, hg, hh])]

/-- Witness for C3: three concrete CDB environments for run 42 exercising
the invalid, missing-gains and fully-calibrated branches. -/
theorem createCalibrator_spec_witness :
    CreateCalibrator ⟨42, fun _ => false, fun _ => true, fun _ => true,
        fun _ => true⟩ =
      { fCalibrationData := none, fDigitCalibrator := none,
        outcome := .errorReturn } ∧
    CreateCalibrator ⟨42, fun _ => true, fun _ => true, fun _ => false,
        fun _ => true⟩ =
      { fCalibrationData := some 42, fDigitCalibrator := none,
        outcome := .fatal } ∧
    CreateCalibrator ⟨42, fun _ => true, fun _ => true, fun _ => true,
        fun _ => true⟩ =
      { fCalibrationData := some 42, fDigitCalibrator := some 42,
        outcome := .created } :=
  ⟨(createCalibrator_spec _).1 rfl,
   (createCalibrator_spec _).2.1 rfl (Or.inr (Or.inl rfl)),
   (createCalibrator_spec _).2.2 rfl rfl rfl rfl⟩

/-- Claim C2: `AliMUONReconstructor::DigitStore()` always returns a
non-null store and caches it; on first creation the implementation is
selected by the upper-cased option flags, `DIGITSTOREV1` first, then
`DIGITSTOREV2R`, then `DIGITSTOREV2S`, with `AliMUONDigitStoreV2R` as the
default; every later call returns the cached store whatever option is then
in force. -/
theorem digitStore_spec (option : List Char) (st : Option DigitStoreKind) :
    (DigitStore option st).2 = some (DigitStore option st).1 ∧
    (∀ o2, (DigitStore o2 (DigitStore option st).2).1 =
      (DigitStore option st).1) ∧
    (st = none →
      (containsSub (upperStr option) "DIGITSTOREV1".toList = true →
        (DigitStore option st).1 = .V1) ∧
      (containsSub (upperStr option) "DIGITSTOREV1".toList = false →
       containsSub (upperStr option) "DIGITSTOREV2R".toList = true →
        (DigitStore option st).1 = .V2R) ∧
      (containsSub (upperStr option) "DIGITSTOREV1".toList = false →
       containsSub (upperStr option) "DIGITSTOREV2R".toList = false →
       containsSub (upperStr option) "DIGITSTOREV2S".toList = true →
        (DigitStore option st).1 = .V2S) ∧
      (containsSub (upperStr option) "DIGITSTOREV1".toList = false →
       containsSub (upperStr option) "DIGITSTOREV2R".toList = false →
       containsSub (upperStr option) "DIGITSTOREV2S".toList = false →
        (DigitStore option st).1 = .V2R)) := by
  cases st with
  | some s => exact ⟨rfl, fun o2 => rfl, fun hnone => by cases hnone⟩
  | none =>
    refine ⟨rfl, fun o2 => rfl, fun _ => ⟨fun h1 => ?_, fun h1 h2 => ?_,
      fun h1 h2 h3 => ?_, fun h1 h2 h3 => ?_⟩⟩
    · simp only [DigitStore]
      rw [if_pos h1]
      rfl
    · simp only [DigitStore]
      rw [if_neg (by rw [h1]; decide), if_pos h2]
      rfl
    · simp only [DigitStore]
      rw [if_neg (by rw [h1]; decide), if_neg (by rw [h2]; decide), if_pos h3]
      rfl
    · simp only [DigitStore]
      rw [if_neg (by rw [h1]; decide), if_neg (by rw [h2]; decide),
        if_neg (by rw [h3]; decide)]
      rfl

/-- Witness for C2: concrete option strings driving each selection branch,
and a second call with a different option returning the cached store. -/
theorem digitStore_spec_witness :
    (DigitStore "SAVEDIGITS DIGITSTOREV2S".toList none).1 = .V2S ∧
    (DigitStore "".toList none).1 = .V2R ∧
    (DigitStore "digitstorev1".toList
      (DigitStore "SAVEDIGITS DIGITSTOREV2S".toList none).2).1 = .V2S :=
  ⟨((digitStore_spec "SAVEDIGITS DIGITSTOREV2S".toList none).2.2 rfl).2.2.1
      (by decide) (by decide) (by decide),
   ((digitStore_spec "".toList none).2.2 rfl).2.2.2
      (by decide) (by decide) (by decide),
   by
    rw [(digitStore_spec "SAVEDIGITS DIGITSTOREV2S".toList none).2.1
      "digitstorev1".toList]
    exact ((digitStore_spec "SAVEDIGITS DIGITSTOREV2S".toList none).2.2
      rfl).2.2.1 (by decide) (by decide) (by decide)⟩

theorem createClusterFinder_eq_find (s : List Char) :
    CreateClusterFinder s =
      (clusterModes.find? (fun pm => containsSub (upperStr s) pm.1)).map
        Prod.snd := by
  simp only [CreateClusterFinder, clusterModes, List.find?_cons,
    List.find?_nil]
  by_cases h1 : containsSub (upperStr s) "PRECLUSTERV2".toList = true
  · rw [if_pos h1]
    simp only [h1]
    rfl
  rw [if_neg h1]
  rw [Bool.not_eq_true] at h1
  simp only [h1]
  by_cases h2 : containsSub (upperStr s) "PRECLUSTERV3".toList = true
  · rw [if_pos h2]
    simp only [h2]
    rfl
  rw [if_neg h2]
  rw [Bool.not_eq_true] at h2
  simp only [h2]
  by_cases h3 : containsSub (upperStr s) "PRECLUSTER".toList = true
  · rw [if_pos h3]
    simp only [h3]
    rfl
  rw [if_neg h3]
  rw [Bool.not_eq_true] at h3
  simp only [h3]
  by_cases h4 : containsSub (upperStr s) "PEAKCOG".toList = true
  · rw [if_pos h4]
    simp only [h4]
    rfl
  rw [if_neg h4]
  rw [Bool.not_eq_true] at h4
  simp only [h4]
  by_cases h5 : containsSub (upperStr s) "PEAKFIT".toList = true
  · rw [if_pos h5]
    simp only [h5]
    rfl
  rw [if_neg h5]
  rw [Bool.not_eq_true] at h5
  simp only [h5]
  by_cases h6 : containsSub (upperStr s) "COG".toList = true
  · rw [if_pos h6]
    simp only [h6]
    rfl
  rw [if_neg h6]
  rw [Bool.not_eq_true] at h6
  simp only [h6]
  by_cases h7 : containsSub (upperStr s) "SIMPLEFITV3".toList = true
  · rw [if_pos h7]
    simp only [h7]
    rfl
  rw [if_neg h7]
  rw [Bool.not_eq_true] at h7
  simp only [h7]
  by_cases h8 : containsSub (upperStr s) "SIMPLEFIT".toList = true
  · rw [if_pos h8]
    simp only [h8]
    rfl
  rw [if_neg h8]
  rw [Bool.not_eq_true] at h8
  simp only [h8]
  by_cases h9 : containsSub (upperStr s) "MLEM:DRAW".toList = true
  · rw [if_pos h9]
    simp only [h9]
    rfl
  rw [if_neg h9]
  rw [Bool.not_eq_true] at h9
  simp only [h9]
  by_cases h10 : containsSub (upperStr s) "MLEMV3".toList = true
  · rw [if_pos h10]
    simp only [h10]
    rfl
  rw [if_neg h10]
  rw [Bool.not_eq_true] at h10
  simp only [h10]
  by_cases h11 : containsSub (upperStr s) "MLEMV2".toList = true
  · rw [if_pos h11]
    simp only [h11]
    rfl
  rw [if_neg h11]
  rw [Bool.not_eq_true] at h11
  simp only [h11]
  by_cases h12 : containsSub (upperStr s) "MLEM".toList = true
  · rw [if_pos h12]
    simp only [h12]
    rfl
  rw [if_neg h12]
  rw [Bool.not_eq_true] at h12
  simp only [h12]
  rfl

/-- Claim C1: `AliMUONReconstructor::CreateClusterFinder` selects the
clusterizer by the string flag: the upper-cased mode string is tested
against the recognized substrings in the order of `clusterModes`, the
first match decides the variant constructed, a non-null finder is returned
exactly when some recognized substring occurs, and every other string
yields the null pointer (after an error log). -/
theorem createClusterFinder_spec (s : List Char) :
    CreateClusterFinder s =
      (clusterModes.find? (fun pm => containsSub (upperStr s) pm.1)).map
        Prod.snd ∧
    ((CreateClusterFinder s).isSome = true ↔
      ∃ pm, pm ∈ clusterModes ∧ containsSub (upperStr s) pm.1 = true) := by
  refine ⟨createClusterFinder_eq_find s, ?_⟩
  rw [createClusterFinder_eq_find s]
  simp [List.find?_isSome]

theorem atan2_zero_one : atan2 0 1 = 0 := by
  unfold atan2
  rw [if_pos (by norm_num : (0 : ℝ) < 1)]
  norm_num [Real.arctan_zero]

theorem atan2_zero_neg_one : atan2 0 (-1) = Real.pi := by
  unfold atan2
  rw [if_neg (by norm_num : ¬((0 : ℝ) < -1)),
    if_pos (⟨by norm_num, le_refl (0 : ℝ)⟩ : (-1 : ℝ) < 0 ∧ (0 : ℝ) ≤ 0)]
  norm_num [Real.arctan_zero]

/-- Counterexample for claim C6: `KinematicSelection` does not test the
particle's polar angle.  For the particle with momentum `(0, 0, -1)` and
windows `fThetaMin = 2`, `fThetaMax = 4`, `fPMin = 0`, `fPMax = 2`, the
total momentum is 1 and the polar angle is `π ∈ [2, 4]`, so the claim
predicts acceptance; the code computes `atan2(pt, p) = atan2(0, 1) = 0`,
which fails the theta cut, and returns false. -/
theorem kinematicSelection_polar_counterexample :
    KinematicSelection ⟨2, 4, 0, 2⟩ ⟨0, 0, -1⟩ = false ∧
    (0 : ℝ) ≤ pOf ⟨0, 0, -1⟩ ∧ pOf ⟨0, 0, -1⟩ ≤ 2 ∧
    (2 : ℝ) ≤ polarAngle ⟨0, 0, -1⟩ ∧ polarAngle ⟨0, 0, -1⟩ ≤ 4 := by
  have hpOf : pOf ⟨0, 0, -1⟩ = 1 := by
    show Real.sqrt ((0 : ℝ) ^ 2 + (0 : ℝ) ^ 2 + (-1 : ℝ) ^ 2) = 1
    norm_num [Real.sqrt_one]
  have hpt : ptOf ⟨0, 0, -1⟩ = 0 := by
    show Real.sqrt ((0 : ℝ) ^ 2 + (0 : ℝ) ^ 2) = 0
    norm_num [Real.sqrt_zero]
  have hpolar : polarAngle ⟨0, 0, -1⟩ = Real.pi := by
    unfold polarAngle
    rw [hpt]
    exact atan2_zero_neg_one
  have hcode : thetaCode ⟨0, 0, -1⟩ = 0 := by
    unfold thetaCode
    rw [hpt, hpOf]
    exact atan2_zero_one
  refine ⟨?_, by rw [hpOf]; norm_num, by rw [hpOf]; norm_num,
    by rw [hpolar]; linarith [Real.pi_gt_three],
    by rw [hpolar]; exact Real.pi_le_four⟩
  unfold KinematicSelection
  rw [if_neg (by rw [hpOf]; norm_num), if_pos (by rw [hcode]; norm_num)]

/-- Claim C6 (amended): `AliGenParam::KinematicSelection(particle)` returns
true exactly when the total momentum `sqrt(px²+py²+pz²)` lies within
`[fPMin, fPMax]` and the angle the code computes, `atan2(pt, p)` with `p`
the total momentum (not the particle's polar angle `atan2(pt, pz)`), lies
within `[fThetaMin, fThetaMax]`; whenever either cut fails it returns
false. -/
theorem kinematicSelection_spec (w : KineWindows) (q : ParticleMomentum) :
    KinematicSelection w q = true ↔
      (w.fPMin ≤ pOf q ∧ pOf q ≤ w.fPMax ∧
       w.fThetaMin ≤ thetaCode q ∧ thetaCode q ≤ w.fThetaMax) := by
  unfold KinematicSelection
  split_ifs with hp ht
  · constructor
    · intro h
      cases h
    · rintro ⟨h1, h2, -, -⟩
      rcases hp with h | h
      · exact absurd h2 (not_le.mpr h)
      · exact absurd h1 (not_le.mpr h)
  · constructor
    · intro h
      cases h
    · rintro ⟨-, -, h3, h4⟩
      rcases ht with h | h
      · exact absurd h4 (not_le.mpr h)
      · exact absurd h3 (not_le.mpr h)
  · push_neg at hp ht
    exact iff_of_true rfl ⟨hp.2, hp.1, ht.2, ht.1⟩

/-- Claim C4: the sampling loop of `AliGenParam::Generate` discards and
resamples every candidate whose `theta = atan2(pt, pl)` falls outside
`[fThetaMin, fThetaMax]` or whose `ptot = sqrt(pt²+pl²)` falls outside
`[fPMin, fPMax]`; consequently every parent that is accepted and stored as
a track satisfies both windows. -/
theorem generate_rejection_sampling :
    (∀ w c, ¬ acceptParent w c →
      ∀ n cs, generateParents w n (c :: cs) = generateParents w n cs) ∧
    (∀ w n cs p, p ∈ generateParents w n cs →
      w.fThetaMin ≤ thetaOf p ∧ thetaOf p ≤ w.fThetaMax ∧
      w.fPMin ≤ ptotOf p ∧ ptotOf p ≤ w.fPMax) := by
  constructor
  · intro w c hrej n cs
    cases n with
    | zero => cases cs <;> simp [generateParents]
    | succ n =>
      simp only [generateParents]
      rw [if_neg hrej]
  · intro w n cs
    induction cs generalizing n with
    | nil =>
      intro p hp
      simp [generateParents] at hp
    | cons c t ih =>
      intro p hp
      cases n with
      | zero => simp [generateParents] at hp
      | succ n =>
        simp only [generateParents] at hp
        by_cases hacc : acceptParent w c
        · rw [if_pos hacc] at hp
          by_cases hch : c.childOk = true
          · rw [if_pos hch] at hp
            rcases List.mem_cons.mp hp with hpc | hpt
            · subst hpc
              obtain ⟨hθ, hP⟩ := hacc
              push_neg at hθ hP
              exact ⟨hθ.1, hθ.2, hP.1, hP.2⟩
            · exact ih n p hpt
          · rw [if_neg hch] at hp
            exact ih (n + 1) p hp
        · rw [if_neg hacc] at hp
          exact ih (n + 1) p hp

/-- Witness for C4: with windows `[-4, 4]` on theta and `[0, 9]` on
momentum, the candidate with `pt = 0`, `pl = 1` (`theta = 0`, `ptot = 1`)
is accepted and stored, and satisfies both windows; with the momentum
window tightened to `[5, 9]` the same candidate is discarded. -/
theorem generate_rejection_sampling_witness :
    ((⟨-4, 4, 0, 9⟩ : KineWindows).fThetaMin ≤ thetaOf ⟨0, 1, true⟩ ∧
      thetaOf ⟨0, 1, true⟩ ≤ (⟨-4, 4, 0, 9⟩ : KineWindows).fThetaMax ∧
      (⟨-4, 4, 0, 9⟩ : KineWindows).fPMin ≤ ptotOf ⟨0, 1, true⟩ ∧
      ptotOf ⟨0, 1, true⟩ ≤ (⟨-4, 4, 0, 9⟩ : KineWindows).fPMax) ∧
    generateParents ⟨-4, 4, 5, 9⟩ 1 [⟨0, 1, true⟩] =
      generateParents ⟨-4, 4, 5, 9⟩ 1 [] := by
  have hθ : thetaOf (⟨0, 1, true⟩ : ParentCandidate) = 0 := atan2_zero_one
  have hptot : ptotOf (⟨0, 1, true⟩ : ParentCandidate) = 1 := by
    show Real.sqrt ((0 : ℝ) ^ 2 + (1 : ℝ) ^ 2) = 1
    norm_num [Real.sqrt_one]
  have hacc : acceptParent ⟨-4, 4, 0, 9⟩ ⟨0, 1, true⟩ := by
    unfold acceptParent
    rw [hθ, hptot]
    norm_num
  have hgen : generateParents ⟨-4, 4, 0, 9⟩ 1 [⟨0, 1, true⟩] =
      [⟨0, 1, true⟩] := by
    simp only [generateParents]
    rw [if_pos hacc]
    simp [generateParents]
  have hrej : ¬ acceptParent ⟨-4, 4, 5, 9⟩ ⟨0, 1, true⟩ := by
    unfold acceptParent
    rw [hptot]
    intro h
    exact h.2 (Or.inl (by norm_num))
  exact ⟨generate_rejection_sampling.2 ⟨-4, 4, 0, 9⟩ 1 [⟨0, 1, true⟩]
      ⟨0, 1, true⟩ (by rw [hgen]; exact List.mem_singleton_self _),
    generate_rejection_sampling.1 ⟨-4, 4, 5, 9⟩ ⟨0, 1, true⟩ hrej 1 []⟩

end AliRoot
